import Mathlib

/-!
Linux runner entry point (`linux/runner/main.cc`).

The entry point makes four calls on code it does not own, in a fixed order:

```
g_set_prgname("ree");
gdk_set_program_class("ree");
g_autoptr(MyApplication) app = my_application_new();
return g_application_run(G_APPLICATION(app), argc, argv);
```

The embedding threads an explicit `World` through `main`.  The world records,
in order, every call `main` makes on a collaborator together with the
arguments of the call, and the handles given back by the scope-exit cleanup
of `g_autoptr`.  The two collaborators whose results `main` uses (the
application factory and the toolkit run routine) are parameters of `main`;
each of them either returns a value to its caller or ends the process
without returning.
-/

namespace Runner

/-- Value of a `MyApplication*` / `GApplication*` pointer. -/
abbrev Handle := Nat

/-- The null pointer. -/
def NULL : Handle := 0

/-- What a call into a collaborator does to its caller: it returns a value,
or it never returns because the process was ended inside the callee
(`abort`, an uncaught C++ exception). -/
inductive Outcome (α : Type) where
  | returned (value : α)
  | aborted
  deriving DecidableEq, Repr

/-- One call made by `main` on a collaborator, with the arguments passed. -/
inductive Call where
  | g_set_prgname (prgname : String)
  | gdk_set_program_class (program_class : String)
  | my_application_new
  | g_application_run (application : Handle) (argc : Int) (argv : List String)
  deriving DecidableEq, Repr

/-- Is this call an entry into the toolkit run routine? -/
def Call.isRun : Call → Bool
  | .g_application_run _ _ _ => true
  | _ => false

/-- Is this call the construction of the application object? -/
def Call.isConstruct : Call → Bool
  | .my_application_new => true
  | _ => false

/-- The observable state threaded through `main`. -/
structure World where
  /-- Calls made on collaborators so far, oldest first. -/
  calls : List Call
  /-- Handles released by `g_object_unref` so far, oldest first. -/
  released : List Handle
  deriving DecidableEq, Repr

/-- The world at process entry: nothing has been called yet. -/
def World.init : World := { calls := [], released := [] }

/-- Append one call to the log. -/
def World.record (w : World) (c : Call) : World :=
  { w with calls := w.calls ++ [c] }

/-- The two collaborators whose results `main` consumes.
`my_application_new` takes no argument; `g_application_run` takes the
application handle, the argument count and the argument vector. -/
structure Collaborators where
  my_application_new : Outcome Handle
  g_application_run : Handle → Int → List String → Outcome Int

/-- The cast `G_APPLICATION(app)`: an upcast to the parent instance type,
which leaves the pointer value as it is. -/
def G_APPLICATION (app : Handle) : Handle := app

/-- Scope-exit cleanup of a `g_autoptr` variable: a non-null pointer is
passed to `g_object_unref`, a null one is left alone. -/
def g_autoptr_cleanup (app : Handle) (w : World) : World :=
  if app = NULL then w else { w with released := w.released ++ [app] }

/-- The entry point `int main(int argc, char** argv)`.  The result pairs what
the process sees from `main` (a returned exit status, or no return) with the
world at that point. -/
def main (env : Collaborators) (argc : Int) (argv : List String) : Outcome Int × World :=
  let w0 := World.init
  -- g_set_prgname("ree");
  let w1 := w0.record (Call.g_set_prgname "ree")
  -- gdk_set_program_class("ree");
  let w2 := w1.record (Call.gdk_set_program_class "ree")
  -- g_autoptr(MyApplication) app = my_application_new();
  let w3 := w2.record Call.my_application_new
  match env.my_application_new with
  | Outcome.aborted => (Outcome.aborted, w3)
  | Outcome.returned app =>
    -- return g_application_run(G_APPLICATION(app), argc, argv);
    let w4 := w3.record (Call.g_application_run (G_APPLICATION app) argc argv)
    match env.g_application_run (G_APPLICATION app) argc argv with
    | Outcome.aborted => (Outcome.aborted, w4)
    | Outcome.returned status =>
      -- leaving the scope of `app`
      (Outcome.returned status, g_autoptr_cleanup app w4)

/-- A run routine that quits at once with the given status. -/
def quitWith (status : Int) : Handle → Int → List String → Outcome Int :=
  fun _ _ _ => Outcome.returned status

/-- Stub collaborators: the factory returns handle `app`, the run routine
returns `status`. -/
def stubEnv (app : Handle) (status : Int) : Collaborators :=
  { my_application_new := Outcome.returned app, g_application_run := quitWith status }

/-- Stub collaborators whose factory ends the process. -/
def abortingFactoryEnv : Collaborators :=
  { my_application_new := Outcome.aborted, g_application_run := quitWith 0 }

/-- The exit status `main` hands back, or the fact that it never returns. -/
def exitStatus (env : Collaborators) (argc : Int) (argv : List String) : Outcome Int :=
  (main env argc argv).1

/-- The log of collaborator calls of one execution of `main`. -/
def trace (env : Collaborators) (argc : Int) (argv : List String) : List Call :=
  (main env argc argv).2.calls

/-- Reading the log from its start, the call `c` is met before any call
that satisfies `q`. -/
def occursBefore (c : Call) (q : Call → Bool) : List Call → Bool
  | [] => true
  | x :: xs => if x = c then true else (!(q x) && occursBefore c q xs)

/-- The calls made before the run routine is entered. -/
def beforeRun (l : List Call) : List Call :=
  l.takeWhile (fun c => !c.isRun)

/-- The same call with the argument count and vector of a run call blanked. -/
def Call.eraseArguments : Call → Call
  | .g_application_run application _ _ => .g_application_run application 0 []
  | c => c

/-- No call in the log is an entry into the run routine. -/
def neverEntersRun (l : List Call) : Bool :=
  l.all (fun c => !c.isRun)

/-! ## Shape of the log -/

/-- The log when the factory returns a handle: four calls, whatever the run
routine does. -/
theorem trace_of_returned (env : Collaborators) (argc : Int) (argv : List String)
    (app : Handle) (happ : env.my_application_new = Outcome.returned app) :
    trace env argc argv =
      [Call.g_set_prgname "ree", Call.gdk_set_program_class "ree",
       Call.my_application_new, Call.g_application_run app argc argv] := by
  unfold trace main
  simp only [happ, G_APPLICATION]
  cases hrun : env.g_application_run app argc argv with
  | aborted => rfl
  | returned status =>
    simp only [g_autoptr_cleanup, World.record, World.init]
    split <;> rfl

/-- The log when the factory does not return: three calls, no run call. -/
theorem trace_of_aborted (env : Collaborators) (argc : Int) (argv : List String)
    (hfail : env.my_application_new = Outcome.aborted) :
    trace env argc argv =
      [Call.g_set_prgname "ree", Call.gdk_set_program_class "ree",
       Call.my_application_new] := by
  unfold trace main
  simp only [hfail]
  rfl

/-- When the factory returns a handle, the outcome of `main` is the outcome of
the run routine on that handle and the arguments of `main`. -/
theorem exitStatus_of_returned (env : Collaborators) (argc : Int) (argv : List String)
    (app : Handle) (happ : env.my_application_new = Outcome.returned app) :
    exitStatus env argc argv = env.g_application_run app argc argv := by
  unfold exitStatus main
  simp only [happ, G_APPLICATION]
  cases hrun : env.g_application_run app argc argv <;> rfl

/-- When the factory does not return, neither does `main`. -/
theorem exitStatus_of_aborted (env : Collaborators) (argc : Int) (argv : List String)
    (hfail : env.my_application_new = Outcome.aborted) :
    exitStatus env argc argv = Outcome.aborted := by
  unfold exitStatus main
  simp only [hfail]

/-! ## Exit status -/

/-- C1: `main` returns the exit status `r` exactly when the factory returned a
handle and the call of the run routine on that handle, with the argument
count and vector of `main`, returned `r`.  The status is handed on as it is:
whatever integer the run routine returns is the integer `main` returns. -/
theorem main_exit_status_is_run_result (env : Collaborators) (argc : Int)
    (argv : List String) (r : Int) :
    exitStatus env argc argv = Outcome.returned r ↔
      ∃ app, env.my_application_new = Outcome.returned app ∧
        env.g_application_run (G_APPLICATION app) argc argv = Outcome.returned r := by
  cases hnew : env.my_application_new with
  | aborted =>
    rw [exitStatus_of_aborted env argc argv hnew]
    simp
  | returned app =>
    rw [exitStatus_of_returned env argc argv app hnew]
    simp [G_APPLICATION]

/-- Run result 0 gives exit status 0 and run result 3 gives exit status 3. -/
theorem main_exit_status_is_run_result_witness :
    exitStatus (stubEnv 7 0) 2 ["ree", "--verbose"] = Outcome.returned 0 ∧
    exitStatus (stubEnv 7 3) 2 ["ree", "--verbose"] = Outcome.returned 3 :=
  ⟨(main_exit_status_is_run_result (stubEnv 7 0) 2 ["ree", "--verbose"] 0).mpr ⟨7, rfl, rfl⟩,
   (main_exit_status_is_run_result (stubEnv 7 3) 2 ["ree", "--verbose"] 3).mpr ⟨7, rfl, rfl⟩⟩

/-! ## Argument forwarding -/

/-- C2: when the factory returns a handle, the run routine is called with the
argument count and the argument vector `main` was given, and every call of
the run routine in the log carries exactly that count and that vector (same
elements, same order). -/
theorem main_forwards_arguments (env : Collaborators) (argc : Int) (argv : List String)
    (app : Handle) (happ : env.my_application_new = Outcome.returned app) :
    Call.g_application_run (G_APPLICATION app) argc argv ∈ trace env argc argv ∧
    ∀ (a : Handle) (n : Int) (v : List String),
      Call.g_application_run a n v ∈ trace env argc argv → n = argc ∧ v = argv := by
  rw [trace_of_returned env argc argv app happ]
  simp [G_APPLICATION]

/-- Three arguments reach the run routine as given. -/
theorem main_forwards_arguments_witness :
    (stubEnv 7 0).my_application_new = Outcome.returned 7 ∧
    (Call.g_application_run (G_APPLICATION 7) 3 ["ree", "--b", "a"]
        ∈ trace (stubEnv 7 0) 3 ["ree", "--b", "a"] ∧
     ∀ (a : Handle) (n : Int) (v : List String),
      Call.g_application_run a n v ∈ trace (stubEnv 7 0) 3 ["ree", "--b", "a"] →
        n = 3 ∧ v = ["ree", "--b", "a"]) :=
  ⟨rfl, main_forwards_arguments (stubEnv 7 0) 3 ["ree", "--b", "a"] 7 rfl⟩

/-! ## Identity configuration -/

/-- C3: for every argument list and every behaviour of the collaborators, the
log holds a call setting the process name to "ree" and a call setting the
window class to "ree", no name or class call carries another string, and
each of the two is met in the log before any construction of the application
object and before any entry into the run routine. -/
theorem main_sets_identity_first (env : Collaborators) (argc : Int) (argv : List String) :
    Call.g_set_prgname "ree" ∈ trace env argc argv ∧
    Call.gdk_set_program_class "ree" ∈ trace env argc argv ∧
    (∀ s, Call.g_set_prgname s ∈ trace env argc argv → s = "ree") ∧
    (∀ s, Call.gdk_set_program_class s ∈ trace env argc argv → s = "ree") ∧
    occursBefore (Call.g_set_prgname "ree") (fun c => c.isConstruct || c.isRun)
      (trace env argc argv) = true ∧
    occursBefore (Call.gdk_set_program_class "ree") (fun c => c.isConstruct || c.isRun)
      (trace env argc argv) = true := by
  cases hnew : env.my_application_new with
  | aborted =>
    rw [trace_of_aborted env argc argv hnew]
    simp [occursBefore, Call.isConstruct, Call.isRun]
  | returned app =>
    rw [trace_of_returned env argc argv app hnew]
    simp [occursBefore, Call.isConstruct, Call.isRun]

/-! ## Failure of the factory -/

/-- C4, as stated, fails when the factory reports failure by returning the
null handle: `main` does not test the handle, enters the run routine with it
and returns the status the run routine gives (here 1) as an ordinary exit
status. -/
theorem main_null_factory_enters_run :
    (stubEnv NULL 1).my_application_new = Outcome.returned NULL ∧
    exitStatus (stubEnv NULL 1) 1 ["ree"] = Outcome.returned 1 ∧
    Call.g_application_run NULL 1 ["ree"] ∈ trace (stubEnv NULL 1) 1 ["ree"] ∧
    neverEntersRun (trace (stubEnv NULL 1) 1 ["ree"]) = false := by
  have ht := trace_of_returned (stubEnv NULL 1) 1 ["ree"] NULL rfl
  have he := exitStatus_of_returned (stubEnv NULL 1) 1 ["ree"] NULL rfl
  refine ⟨rfl, he, ?_, ?_⟩
  · rw [ht]; simp
  · rw [ht]; simp [neverEntersRun, Call.isRun]

/-- C4, amended: when the factory does not return (it ends the process),
`main` does not return an exit status either and the run routine is never
entered; when the factory returns a handle, null or not, `main` does not
test it: the run routine is entered with that handle and the outcome of
`main` is the outcome of the run routine. -/
theorem main_factory_failure (env : Collaborators) (argc : Int) (argv : List String) :
    (env.my_application_new = Outcome.aborted →
      exitStatus env argc argv = Outcome.aborted ∧
      neverEntersRun (trace env argc argv) = true) ∧
    (∀ app, env.my_application_new = Outcome.returned app →
      Call.g_application_run app argc argv ∈ trace env argc argv ∧
      exitStatus env argc argv = env.g_application_run app argc argv) := by
  constructor
  · intro hfail
    refine ⟨exitStatus_of_aborted env argc argv hfail, ?_⟩
    rw [trace_of_aborted env argc argv hfail]
    simp [neverEntersRun, Call.isRun]
  · intro app happ
    refine ⟨?_, exitStatus_of_returned env argc argv app happ⟩
    rw [trace_of_returned env argc argv app happ]
    simp

/-- An aborting factory stops `main` before the run routine; a factory that
returns the null handle does not. -/
theorem main_factory_failure_witness :
    (abortingFactoryEnv.my_application_new = Outcome.aborted ∧
      exitStatus abortingFactoryEnv 1 ["ree"] = Outcome.aborted ∧
      neverEntersRun (trace abortingFactoryEnv 1 ["ree"]) = true) ∧
    ((stubEnv NULL 5).my_application_new = Outcome.returned NULL ∧
      Call.g_application_run NULL 1 ["ree"] ∈ trace (stubEnv NULL 5) 1 ["ree"] ∧
      exitStatus (stubEnv NULL 5) 1 ["ree"] = Outcome.returned 5) :=
  ⟨⟨rfl, (main_factory_failure abortingFactoryEnv 1 ["ree"]).1 rfl⟩,
   ⟨rfl, (main_factory_failure (stubEnv NULL 5) 1 ["ree"]).2 NULL rfl⟩⟩

/-! ## Call sequence -/

/-- C5: when the factory returns a handle, the log of one execution of `main`
is exactly: set process name, set window class, construct application, run,
whatever the run routine does; the run call carries the handle the factory
returned, there is one construction and one run call. -/
theorem main_call_sequence (env : Collaborators) (argc : Int) (argv : List String)
    (app : Handle) (happ : env.my_application_new = Outcome.returned app) :
    trace env argc argv =
      [Call.g_set_prgname "ree", Call.gdk_set_program_class "ree",
       Call.my_application_new, Call.g_application_run app argc argv] ∧
    ((trace env argc argv).filter Call.isConstruct).length = 1 ∧
    ((trace env argc argv).filter Call.isRun).length = 1 := by
  rw [trace_of_returned env argc argv app happ]
  simp [Call.isConstruct, Call.isRun]

/-- The four calls of an execution whose run routine returns a nonzero status. -/
theorem main_call_sequence_witness :
    (stubEnv 7 3).my_application_new = Outcome.returned 7 ∧
    (trace (stubEnv 7 3) 2 ["ree", "--verbose"] =
      [Call.g_set_prgname "ree", Call.gdk_set_program_class "ree",
       Call.my_application_new, Call.g_application_run 7 2 ["ree", "--verbose"]] ∧
    ((trace (stubEnv 7 3) 2 ["ree", "--verbose"]).filter Call.isConstruct).length = 1 ∧
    ((trace (stubEnv 7 3) 2 ["ree", "--verbose"]).filter Call.isRun).length = 1) :=
  ⟨rfl, main_call_sequence (stubEnv 7 3) 2 ["ree", "--verbose"] 7 rfl⟩

/-! ## Independence from the arguments -/

/-- C6: for any two argument lists and the same collaborators, the calls made
before the run routine is entered are the same three calls (set process name
to "ree", set window class to "ree", construct the application without
arguments), and the two logs differ at most in the argument count and vector
carried by the run call. -/
theorem main_setup_independent_of_arguments (env : Collaborators)
    (argc₁ : Int) (argv₁ : List String) (argc₂ : Int) (argv₂ : List String) :
    beforeRun (trace env argc₁ argv₁) =
      [Call.g_set_prgname "ree", Call.gdk_set_program_class "ree",
       Call.my_application_new] ∧
    beforeRun (trace env argc₁ argv₁) = beforeRun (trace env argc₂ argv₂) ∧
    (trace env argc₁ argv₁).map Call.eraseArguments =
      (trace env argc₂ argv₂).map Call.eraseArguments := by
  cases hnew : env.my_application_new with
  | aborted =>
    rw [trace_of_aborted env argc₁ argv₁ hnew, trace_of_aborted env argc₂ argv₂ hnew]
    simp [beforeRun, Call.isRun, List.takeWhile]
  | returned app =>
    rw [trace_of_returned env argc₁ argv₁ app hnew, trace_of_returned env argc₂ argv₂ app hnew]
    simp [beforeRun, Call.isRun, List.takeWhile, Call.eraseArguments]

end Runner
